import Mathlib

/-!
Verification of the quality-driven refinement pipeline of the
`ai-novel-writer` repository, as a shallow embedding in Lean 4.

The embedding translates the relevant Python source into Lean:

* `src/ai_story_writer/models/story_models.py` — quality metrics,
  enhancement enums, convergence metrics, quality configuration;
* `src/ai_story_writer/workflow/advanced_quality_assessor.py` —
  `_calculate_comprehensive_overall_score`;
* `src/ai_story_writer/workflow/quality_enhancement_engine.py` —
  `_select_enhancement_strategy`, `_update_convergence_metrics`,
  `_detect_quality_convergence`, `enhance_story`, `_build_final_result`;
* `src/ai_story_writer/workflow/workflow_engine.py` —
  `_execute_step_with_retry`, `execute_workflow`.

Python floats are modelled as rationals (`ℚ`): every constant that appears
in the claims (0.05, 0.1, 0.3, 0.5, 1.0, the dimension weights) is exactly
representable in binary floating point or only compared across strict
inequalities with ample margin, so no rounding behaviour of `float`
changes any comparison proved below.  Python exceptions are modelled with
`Except`; the external Generation / Quality Scoring services are modelled
as call-indexed fallible functions.  Wall-clock time is modelled by
explicit durations attached to the simulated handler outcomes.
-/

namespace AIStoryWriter

/-- Python exceptions relevant to the embedded code paths. -/
inductive PyExc where
  | workflowError (msg : String)
  | storyGenerationError (msg : String)
  | stepException (msg : String)
  | nameError (name : String)
deriving DecidableEq, Repr

/-- The eleven scored quality dimensions plus `overall`
(`QualityDimension` in `story_models.py`; `structure` is a Lean keyword,
hence `structure_`). -/
inductive QualityDimension where
  | structure_
  | coherence
  | character_development
  | genre_compliance
  | pacing_quality
  | theme_integration
  | dialogue_quality
  | setting_immersion
  | emotional_impact
  | originality_score
  | technical_quality
  | overall
deriving DecidableEq, Repr

/-- Embedding of `EnhancementStrategy` in `story_models.py`. -/
inductive EnhancementStrategy where
  | structure_focus
  | character_focus
  | pacing_focus
  | coherence_focus
  | genre_focus
  | dialogue_focus
  | setting_focus
  | emotional_focus
  | technical_focus
  | comprehensive
deriving DecidableEq, Repr

/-- The string value of an `EnhancementStrategy` member
(`str`-valued enum in the source). -/
def EnhancementStrategy.value : EnhancementStrategy → String
  | .structure_focus => "structure_focus"
  | .character_focus => "character_focus"
  | .pacing_focus => "pacing_focus"
  | .coherence_focus => "coherence_focus"
  | .genre_focus => "genre_focus"
  | .dialogue_focus => "dialogue_focus"
  | .setting_focus => "setting_focus"
  | .emotional_focus => "emotional_focus"
  | .technical_focus => "technical_focus"
  | .comprehensive => "comprehensive"

/-- Embedding of `AdvancedQualityMetrics` (`story_models.py`): the overall score plus
the eleven per-dimension scores.  Trend/metadata fields that no claim
touches are omitted from the projection. -/
structure AdvancedQualityMetrics where
  overall_score : ℚ
  structure_score : ℚ
  coherence_score : ℚ
  character_development : ℚ
  genre_compliance : ℚ
  pacing_quality : ℚ
  theme_integration : ℚ
  dialogue_quality : ℚ
  setting_immersion : ℚ
  emotional_impact : ℚ
  originality_score : ℚ
  technical_quality : ℚ
deriving DecidableEq, Repr

/-- Embedding of `ConvergenceMetrics` (`story_models.py`). -/
structure ConvergenceMetrics where
  convergence_detected : Bool := false
  convergence_pass : Option ℕ := none
  quality_plateau_threshold : ℚ := 1/10
  improvement_velocity : List ℚ := []
  diminishing_returns_detected : Bool := false
  optimal_pass_prediction : Option ℕ := none
deriving DecidableEq, Repr

/-- Embedding of `EnhancementPass` (`story_models.py`); fields not consulted by any
claim (timestamps, textual improvement notes) are omitted. -/
structure EnhancementPass where
  pass_number : ℕ
  strategy_used : EnhancementStrategy
  quality_before : AdvancedQualityMetrics
  quality_after : AdvancedQualityMetrics
  time_taken : ℚ
  token_usage : ℕ
  quality_improvement : ℚ
deriving DecidableEq, Repr

/-- Embedding of `QualityConfig` (`story_models.py`) — the fields the embedded code
reads, with the source's defaults.  The strategy-weight map is an
association list of the same keys as the Python `dict`. -/
structure QualityConfig where
  target_quality_score : ℚ := 8
  max_enhancement_passes : ℕ := 3
  quality_convergence_threshold : ℚ := 1/10
  enhancement_strategy_weights : List (String × ℚ) :=
    [("structure_weight", 1), ("character_weight", 12/10),
     ("pacing_weight", 11/10), ("dialogue_weight", 9/10),
     ("setting_weight", 8/10), ("emotional_impact_weight", 13/10),
     ("originality_weight", 7/10), ("technical_weight", 1)]
  enable_generation_caching : Bool := true
deriving Repr

/-- Python `dict.get(key, default)` over an association list. -/
def dictGet (d : List (String × ℚ)) (key : String) (dflt : ℚ) : ℚ :=
  match d.find? (fun kv => kv.1 = key) with
  | some kv => kv.2
  | none => dflt

/-- Embedding of `AdvancedQualityMetrics.get_weakest_dimensions` (`story_models.py`
lines 148–169): the dimensions scoring strictly below the threshold, in
the fixed insertion order of the source's `dimension_scores` dict. -/
def get_weakest_dimensions (m : AdvancedQualityMetrics) (threshold : ℚ) :
    List QualityDimension :=
  ([(QualityDimension.structure_, m.structure_score),
    (QualityDimension.coherence, m.coherence_score),
    (QualityDimension.character_development, m.character_development),
    (QualityDimension.genre_compliance, m.genre_compliance),
    (QualityDimension.pacing_quality, m.pacing_quality),
    (QualityDimension.theme_integration, m.theme_integration),
    (QualityDimension.dialogue_quality, m.dialogue_quality),
    (QualityDimension.setting_immersion, m.setting_immersion),
    (QualityDimension.emotional_impact, m.emotional_impact),
    (QualityDimension.originality_score, m.originality_score),
    (QualityDimension.technical_quality, m.technical_quality)].filter
      (fun ds => ds.2 < threshold)).map (fun ds => ds.1)

/-- The `strategy_priorities` dict of `_select_enhancement_strategy`
(`quality_enhancement_engine.py` lines 227–237): nine dimensions are
mapped to a focused strategy; `theme_integration`, `originality_score`
and `overall` have no entry. -/
def strategy_priorities : QualityDimension → Option EnhancementStrategy
  | .structure_ => some .structure_focus
  | .character_development => some .character_focus
  | .pacing_quality => some .pacing_focus
  | .coherence => some .coherence_focus
  | .genre_compliance => some .genre_focus
  | .dialogue_quality => some .dialogue_focus
  | .setting_immersion => some .setting_focus
  | .emotional_impact => some .emotional_focus
  | .technical_quality => some .technical_focus
  | _ => none

/-- The `dimension_scores` dict of `_select_enhancement_strategy`
(lines 240–250). -/
def dimension_scores (m : AdvancedQualityMetrics) : QualityDimension → ℚ
  | .structure_ => m.structure_score
  | .character_development => m.character_development
  | .pacing_quality => m.pacing_quality
  | .coherence => m.coherence_score
  | .genre_compliance => m.genre_compliance
  | .dialogue_quality => m.dialogue_quality
  | .setting_immersion => m.setting_immersion
  | .emotional_impact => m.emotional_impact
  | .technical_quality => m.technical_quality
  | .theme_integration => m.theme_integration
  | .originality_score => m.originality_score
  | .overall => m.overall_score

/-- Python's `max(items, key=lambda x: x[1])`: the first item whose value
is maximal (later items replace the champion only on a strictly greater
value). -/
def pyMaxBySnd {α : Type} : List (α × ℚ) → Option (α × ℚ)
  | [] => none
  | x :: xs => some (xs.foldl (fun best y => if y.2 > best.2 then y else best) x)

/-- The weight-dict key `strategy.replace('_focus', '_weight')` of
`_select_enhancement_strategy` (line 260), evaluated on each enum member
(`comprehensive` contains no `_focus` substring and is left unchanged; it
is never looked up because `strategy_priorities` never yields it). -/
def strategy_weight_key : EnhancementStrategy → String
  | .structure_focus => "structure_weight"
  | .character_focus => "character_weight"
  | .pacing_focus => "pacing_weight"
  | .coherence_focus => "coherence_weight"
  | .genre_focus => "genre_weight"
  | .dialogue_focus => "dialogue_weight"
  | .setting_focus => "setting_weight"
  | .emotional_focus => "emotional_weight"
  | .technical_focus => "technical_weight"
  | .comprehensive => "comprehensive"

/-- Embedding of `QualityEnhancementEngine._select_enhancement_strategy`
(`quality_enhancement_engine.py` lines 205–271).  The
`requirements` argument of the source is unused there and omitted. -/
def select_enhancement_strategy (cfg : QualityConfig)
    (quality_metrics : AdvancedQualityMetrics) : EnhancementStrategy :=
  let weak_dimensions := get_weakest_dimensions quality_metrics 7
  if weak_dimensions.isEmpty then .comprehensive
  else
    let weighted_priorities : List (QualityDimension × ℚ) :=
      weak_dimensions.filterMap (fun dimension =>
        match strategy_priorities dimension with
        | some strat =>
            let weight := dictGet cfg.enhancement_strategy_weights
              (strategy_weight_key strat) 1
            some (dimension, (10 - dimension_scores quality_metrics dimension) * weight)
        | none => none)
    match pyMaxBySnd weighted_priorities with
    | some dv =>
        match strategy_priorities dv.1 with
        | some strat => strat
        | none => .comprehensive
    | none => .comprehensive

/-- Python `xs[-2:]` on a list known to be nonempty. -/
def lastTwo (xs : List ℚ) : List ℚ := xs.drop (xs.length - 2)

/-- Embedding of `QualityEnhancementEngine._update_convergence_metrics`
(`quality_enhancement_engine.py` lines 521–544). -/
def update_convergence_metrics (convergence : ConvergenceMetrics)
    (enhancement_passes : List EnhancementPass) : ConvergenceMetrics :=
  if enhancement_passes.length < 2 then convergence
  else
    let recent_improvements :=
      lastTwo (enhancement_passes.map (fun p => p.quality_improvement))
    let c := { convergence with
      improvement_velocity := convergence.improvement_velocity ++ recent_improvements }
    match recent_improvements with
    | [previous_improvement, latest_improvement] =>
        if latest_improvement < previous_improvement * (1/2) then
          { c with diminishing_returns_detected := true }
        else c
    | _ => c

/-- Embedding of `QualityEnhancementEngine._detect_quality_convergence`
(`quality_enhancement_engine.py` lines 546–572). -/
def detect_quality_convergence (cfg : QualityConfig)
    (enhancement_passes : List EnhancementPass)
    (convergence_metrics : ConvergenceMetrics) : Bool :=
  if enhancement_passes.length < 2 then false
  else
    let latest_improvement :=
      ((enhancement_passes.map (fun p => p.quality_improvement)).getLastD 0)
    if latest_improvement < cfg.quality_convergence_threshold then true
    else if convergence_metrics.diminishing_returns_detected then true
    else
      let last_two_improvements :=
        lastTwo (enhancement_passes.map (fun p => p.quality_improvement))
      if last_two_improvements.all
          (fun improvement => improvement < cfg.quality_convergence_threshold) then true
      else false

/-- Python `round(x, 2)` modelled over `ℚ` (ties are rounded half-up here,
where CPython's float `round` rounds half-to-even; no claim depends on the
tie case). -/
def roundTo2 (x : ℚ) : ℚ := (round (100 * x) : ℤ) / 100

/-- The weight dict of
`AdvancedQualityAssessor._calculate_comprehensive_overall_score`
(`advanced_quality_assessor.py` lines 349–361). -/
def v14_weights : List (String × ℚ) :=
  [("structure", 12/100), ("coherence", 10/100),
   ("character_development", 12/100), ("genre_compliance", 8/100),
   ("pacing_quality", 10/100), ("theme_integration", 8/100),
   ("dialogue_quality", 10/100), ("setting_immersion", 8/100),
   ("emotional_impact", 12/100), ("originality_score", 6/100),
   ("technical_quality", 4/100)]

/-- Embedding of `AdvancedQualityAssessor._calculate_comprehensive_overall_score`
(`advanced_quality_assessor.py` lines 345–378). -/
def calculate_comprehensive_overall_score (metrics : AdvancedQualityMetrics) : ℚ :=
  let w := fun key => dictGet v14_weights key 0
  let weighted_sum :=
    metrics.structure_score * w "structure" +
    metrics.coherence_score * w "coherence" +
    metrics.character_development * w "character_development" +
    metrics.genre_compliance * w "genre_compliance" +
    metrics.pacing_quality * w "pacing_quality" +
    metrics.theme_integration * w "theme_integration" +
    metrics.dialogue_quality * w "dialogue_quality" +
    metrics.setting_immersion * w "setting_immersion" +
    metrics.emotional_impact * w "emotional_impact" +
    metrics.originality_score * w "originality_score" +
    metrics.technical_quality * w "technical_quality"
  roundTo2 weighted_sum

/-- Embedding of `QualityEnhancementEngine._determine_quality_tier`
(`quality_enhancement_engine.py` lines 878–887). -/
def determine_quality_tier (score : ℚ) : String :=
  if score ≥ 9 then "excellent"
  else if score ≥ 8 then "good"
  else if score ≥ 7 then "acceptable"
  else "needs_work"

/-- Embedding of `QualityEnhancementEngine._estimate_token_usage`
(`quality_enhancement_engine.py` lines 513–519). -/
def estimate_token_usage (original enhanced : String) : ℕ :=
  original.length / 4 + enhanced.length / 4 + 500

/-- Python `str.split()` word count as used by `len(content.split())`. -/
def wordCount (content : String) : ℕ :=
  ((content.split (fun c => c.isWhitespace)).filter (fun w => w ≠ "")).length

/-- Embedding of `QualityEnhancedResult` (`story_models.py`) — the fields derived from
the embedded computation; pure-reporting substructures (feedback,
insights, performance, cache) are omitted. -/
structure QualityEnhancedResult where
  title : String
  content : String
  word_count : ℕ
  quality_metrics : AdvancedQualityMetrics
  enhancement_history : List EnhancementPass
  convergence_metrics : ConvergenceMetrics
  target_quality_achieved : Bool
  enhancement_successful : Bool
  quality_tier : String
deriving DecidableEq, Repr

/-- The names bound in the local scope of
`QualityEnhancementEngine._build_final_result`
(`quality_enhancement_engine.py` lines 574–655): its parameters and the
locals assigned before the `QualityEnhancedResult(...)` call.  Transcribed
from the source; note that `target_quality` (a local of `enhance_story`,
a different function) is not among them. -/
def build_final_result_scope : List String :=
  ["self", "content", "title", "requirements", "enhancement_passes",
   "final_quality", "workflow_state", "generation_id", "start_time",
   "convergence_metrics", "total_time", "total_enhancement_tokens",
   "total_assessment_time", "performance_metrics", "quality_feedback",
   "generation_insights", "generation_metadata", "quality_tier",
   "cache_utilization"]

/-- The module-level names of `quality_enhancement_engine.py` visible as
globals inside `_build_final_result` (imports, the logger and the two
class statements). -/
def qee_module_globals : List String :=
  ["asyncio", "logging", "time", "datetime", "Dict", "List", "Optional",
   "Tuple", "Any", "uuid4", "StoryRequirements", "AdvancedQualityMetrics",
   "EnhancementStrategy", "QualityDimension", "EnhancementPass",
   "QualityFeedback", "GenerationInsights", "ConvergenceMetrics",
   "QualityImprovement", "QualityEnhancedResult", "QualityConfig",
   "EnhancedPerformanceMetrics", "WorkflowState", "WorkflowStage",
   "GenerationMetadata", "GenerationMethod", "AdvancedQualityAssessor",
   "StoryGenerationError", "logger", "QualityEnhancementEngine",
   "EnhancementPerformanceTracker"]

/-- Python name resolution inside `_build_final_result`: a name resolves
iff it is a local of that function or a module-level global (there is no
enclosing function scope — `_build_final_result` is not nested inside
`enhance_story`). -/
def qee_build_resolves (x : String) : Bool :=
  build_final_result_scope.contains x || qee_module_globals.contains x

/-- Embedding of `QualityEnhancementEngine._build_final_result`
(`quality_enhancement_engine.py` lines 574–655).  The
`target_quality_achieved=` keyword argument evaluates the bare name
`target_quality` (line 652); the embedding performs that name resolution
explicitly and raises `NameError` when it fails, exactly as CPython
does.  (The `.ok` branch is the result the constructor call would build
if the name resolved.) -/
def build_final_result (cfg : QualityConfig) (content title : String)
    (enhancement_passes : List EnhancementPass)
    (final_quality : AdvancedQualityMetrics)
    (convergence_metrics : Option ConvergenceMetrics) :
    Except PyExc QualityEnhancedResult :=
  if qee_build_resolves "target_quality" then
    .ok
      { title := title
        content := content
        word_count := wordCount content
        quality_metrics := final_quality
        enhancement_history := enhancement_passes
        convergence_metrics := convergence_metrics.getD {}
        target_quality_achieved :=
          decide (final_quality.overall_score ≥ cfg.target_quality_score)
        enhancement_successful := decide (enhancement_passes.length > 0)
        quality_tier := determine_quality_tier final_quality.overall_score }
  else .error (.nameError "target_quality")

/-- The two opaque external collaborators of the enhancement loop,
call-indexed so that distinct service invocations during one run are
distinct events: `assess` is the Quality Scoring Service
(`AdvancedQualityAssessor.assess_comprehensive`) and `enhance` is the
Generation Service (`apply_targeted_enhancement`, returning enhanced
content and title). -/
structure Services where
  assess : ℕ → String → Except PyExc AdvancedQualityMetrics
  enhance : ℕ → String → EnhancementStrategy → Except PyExc (String × String)

/-- The `for pass_num in range(1, max_passes + 1)` loop of
`QualityEnhancementEngine.enhance_story`
(`quality_enhancement_engine.py` lines 118–185), with the pass budget as
structural fuel and the service-call counter threaded through.  Returns
the current content/title, the pass history, the convergence metrics and
the next call index.  Faithful details: the loop re-assesses the current
content at the top of each pass; on a convergence break the just-enhanced
content is **not** adopted (the `current_content = enhanced_content`
update at lines 182–183 is skipped by the `break` at line 179). -/
def enhanceLoop (S : Services) (cfg : QualityConfig) (target_quality : ℚ) :
    ℕ → ℕ → String → String → List EnhancementPass → ConvergenceMetrics → ℕ →
    Except PyExc (String × String × List EnhancementPass × ConvergenceMetrics × ℕ)
  | 0, _, current_content, current_title, enhancement_passes, convergence_metrics, n =>
      .ok (current_content, current_title, enhancement_passes, convergence_metrics, n)
  | fuel + 1, pass_num, current_content, current_title, enhancement_passes,
      convergence_metrics, n =>
    match S.assess n current_content with
    | .error e => .error e
    | .ok current_quality =>
      if current_quality.overall_score ≥ target_quality then
        -- target quality achieved: break
        .ok (current_content, current_title, enhancement_passes, convergence_metrics, n + 1)
      else
        let strategy := select_enhancement_strategy cfg current_quality
        match S.enhance (n + 1) current_content strategy with
        | .error e => .error e
        | .ok enhanced =>
          match S.assess (n + 2) enhanced.1 with
          | .error e => .error e
          | .ok enhanced_quality =>
            let enhancement_pass : EnhancementPass :=
              { pass_number := pass_num
                strategy_used := strategy
                quality_before := current_quality
                quality_after := enhanced_quality
                time_taken := 0
                token_usage := estimate_token_usage current_content enhanced.1
                quality_improvement :=
                  enhanced_quality.overall_score - current_quality.overall_score }
            let enhancement_passes := enhancement_passes ++ [enhancement_pass]
            let convergence_metrics :=
              update_convergence_metrics convergence_metrics enhancement_passes
            if detect_quality_convergence cfg enhancement_passes convergence_metrics then
              .ok (current_content, current_title, enhancement_passes,
                { convergence_metrics with
                  convergence_detected := true
                  convergence_pass := some pass_num }, n + 3)
            else
              enhanceLoop S cfg target_quality fuel (pass_num + 1) enhanced.1 enhanced.2
                enhancement_passes convergence_metrics (n + 3)

/-- Python's `x or default` for an optional float argument (`None` and
`0.0` are both falsy). -/
def pyOrQ (x : Option ℚ) (dflt : ℚ) : ℚ :=
  match x with
  | some v => if v = 0 then dflt else v
  | none => dflt

/-- Python's `x or default` for an optional int argument. -/
def pyOrN (x : Option ℕ) (dflt : ℕ) : ℕ :=
  match x with
  | some v => if v = 0 then dflt else v
  | none => dflt

/-- Embedding of `QualityEnhancementEngine.enhance_story`
(`quality_enhancement_engine.py` lines 49–203): initial assessment,
zero-pass shortcut when the initial score meets the target, the
enhancement-pass loop, the final assessment and result assembly.
Requirements, logging, uuid and wall-clock reads play no role in any
claim and are abstracted away. -/
def enhance_story (S : Services) (cfg : QualityConfig)
    (initial_story initial_title : String)
    (target_quality : Option ℚ) (max_passes : Option ℕ) :
    Except PyExc QualityEnhancedResult :=
  let tq := pyOrQ target_quality cfg.target_quality_score
  let mp := pyOrN max_passes cfg.max_enhancement_passes
  match S.assess 0 initial_story with
  | .error e => .error e
  | .ok initial_quality =>
    if initial_quality.overall_score ≥ tq then
      build_final_result cfg initial_story initial_title [] initial_quality none
    else
      match enhanceLoop S cfg tq mp 1 initial_story initial_title [] {} 1 with
      | .error e => .error e
      | .ok r =>
        match S.assess r.2.2.2.2 r.1 with
        | .error e => .error e
        | .ok final_quality =>
          build_final_result cfg r.1 r.2.1 r.2.2.1 final_quality (some r.2.2.2.1)

/-- Embedding of `WorkflowStage` (`v13_models.py` / `story_models.py`). -/
inductive WorkflowStage where
  | analysis
  | strategy_selection
  | outline_generation
  | content_generation
  | quality_assessment
  | enhancement
  | finalization
deriving DecidableEq, Repr

/-- The outcome of one attempted invocation of a step handler under
`asyncio.wait_for` (`workflow_engine.py` lines 242–246): it completes
with a value after `dur` time units, raises after `dur` time units, or
hits the step timeout.  The handler of a `WorkflowStep` is modelled as
the map from attempt index to this outcome. -/
inductive AttemptOutcome where
  | ok (v : ℚ) (dur : ℚ)
  | fail (msg : String) (dur : ℚ)
  | timeout
deriving Repr

/-- Whether an attempt completes successfully. -/
def AttemptOutcome.isOk : AttemptOutcome → Bool
  | .ok _ _ => true
  | _ => false

/-- Embedding of `WorkflowStep` (`workflow_engine.py` lines 25–42) with the source's
defaults. -/
structure WorkflowStep where
  name : String
  stage : WorkflowStage
  handler : ℕ → AttemptOutcome
  timeout : ℚ := 60
  retry_count : ℕ := 2
  required : Bool := true

/-- The configuration read by `WorkflowEngine.__init__`
(`workflow_engine.py` lines 51–63) with the source's defaults. -/
structure EngineConfig where
  max_workflow_time : ℚ := 300
  enable_quality_enhancement : Bool := true
  quality_threshold : ℚ := 7
  max_enhancement_iterations : ℕ := 2
deriving Repr

/-- The attempt loop of `WorkflowEngine._execute_step_with_retry`
(`workflow_engine.py` lines 240–264), with the remaining attempt count as
structural fuel (`attempt + fuel = retry_count + 1` at every call).
Returns the step result, the simulated elapsed time and the list of
backoff sleeps performed.  Faithful details: a backoff sleep of
`min(2 ** attempt, 10)` happens only in the generic-exception branch
(line 264); the `asyncio.TimeoutError` branch retries immediately, and
each timed-out attempt consumes the step's timeout. -/
def stepAttempts (step : WorkflowStep) :
    ℕ → ℕ → Except PyExc ℚ × ℚ × List ℚ
  | 0, _ => (.error (.workflowError "unreachable: attempt budget exhausted"), 0, [])
  | fuel + 1, attempt =>
    match step.handler attempt with
    | .ok v dur => (.ok v, dur, [])
    | .timeout =>
        if attempt = step.retry_count then
          (.error (.workflowError ("Step " ++ step.name ++ " timed out after retries")),
            step.timeout, [])
        else
          let rec_result := stepAttempts step fuel (attempt + 1)
          (rec_result.1, step.timeout + rec_result.2.1, rec_result.2.2)
    | .fail msg dur =>
        if attempt = step.retry_count then
          -- final failed attempt re-raises the handler's exception
          (.error (.stepException msg), dur, [])
        else
          let backoff := min ((2 : ℚ) ^ attempt) 10
          let rec_result := stepAttempts step fuel (attempt + 1)
          (rec_result.1, dur + backoff + rec_result.2.1, backoff :: rec_result.2.2)

/-- Embedding of `WorkflowEngine._execute_step_with_retry`
(`workflow_engine.py` lines 233–264). -/
def execute_step_with_retry (step : WorkflowStep) : Except PyExc ℚ × ℚ × List ℚ :=
  stepAttempts step (step.retry_count + 1) 0

/-- The `WorkflowState` snapshot handed to `progress_callback`
(`workflow_engine.py` lines 129–135 and 165–170). -/
structure WfObservation where
  stage : WorkflowStage
  current_step : String
  progress : ℚ
  steps_completed : List String
  steps_remaining : List String
deriving DecidableEq, Repr

/-- Python `list.remove(x)`: delete the first occurrence. -/
def listRemoveFirst (xs : List String) (x : String) : List String :=
  match xs with
  | [] => []
  | y :: ys => if y = x then ys else y :: listRemoveFirst ys x

/-- The step loop of `WorkflowEngine.execute_workflow`
(`workflow_engine.py` lines 127–162).  Arguments: the remaining steps,
the total step count, the index of the next step, the completed and
remaining name lists, the elapsed simulated time and the observations
emitted so far (one per `progress_callback` invocation).  On a step
failure the raised error is wrapped by the outer `except` clause into
`WorkflowError("Workflow execution failed: ...")` (lines 224–226) for
both the `required` and the non-`required` branch.  On success the final
Finalization observation (progress 1.0) is appended. -/
def wfLoop (total : ℕ) :
    List WorkflowStep → ℕ → List String → List String → ℚ → List WfObservation →
    Except PyExc (List String) × ℚ × List WfObservation
  | [], _, steps_completed, steps_remaining, elapsed, trace =>
      (.ok steps_completed, elapsed,
        trace ++ [{ stage := .finalization, current_step := "finalization",
                    progress := 1, steps_completed := steps_completed,
                    steps_remaining := steps_remaining }])
  | step :: rest, i, steps_completed, steps_remaining, elapsed, trace =>
      let obs : WfObservation :=
        { stage := step.stage, current_step := step.name,
          progress := (i : ℚ) / (total : ℚ),
          steps_completed := steps_completed, steps_remaining := steps_remaining }
      let r := execute_step_with_retry step
      match r.1 with
      | .ok _v =>
          wfLoop total rest (i + 1) (steps_completed ++ [step.name])
            (listRemoveFirst steps_remaining step.name) (elapsed + r.2.1)
            (trace ++ [obs])
      | .error e =>
          let inner :=
            if step.required then
              PyExc.workflowError ("Required step " ++ step.name ++ " failed")
            else
              PyExc.storyGenerationError
                ("Critical workflow step " ++ step.name ++ " failed")
          let msg :=
            match inner, e with
            | .workflowError m, _ => m
            | .storyGenerationError m, _ => m
            | _, _ => ""
          (.error (.workflowError ("Workflow execution failed: " ++ msg)),
            elapsed + r.2.1, trace ++ [obs])

/-- The result assembled by `execute_workflow` on success
(`workflow_engine.py` lines 172–222); the fields no claim consults
(title/content plumbing, tool usage) are omitted.
`estimated_completion_time` is the offset `max_workflow_time` from the
run's start (line 106) — the only place the wall-clock budget is used. -/
structure AdvancedGeneratedStory where
  workflow_state_final : WfObservation
  generation_time : ℚ
  api_calls_made : ℕ
  estimated_completion_time : ℚ
deriving DecidableEq, Repr

/-- Embedding of `WorkflowEngine.execute_workflow` (`workflow_engine.py` lines
77–231): runs every registered step in order and assembles the result;
also returns the simulated elapsed time and the list of
`progress_callback` observations. -/
def execute_workflow (cfg : EngineConfig) (steps : List WorkflowStep) :
    Except PyExc AdvancedGeneratedStory × ℚ × List WfObservation :=
  let r := wfLoop steps.length steps 0 [] (steps.map (fun s => s.name)) 0 []
  match r.1 with
  | .ok completed =>
      (.ok
        { workflow_state_final :=
            { stage := .finalization, current_step := "finalization",
              progress := 1, steps_completed := completed, steps_remaining := [] }
          generation_time := r.2.1
          api_calls_made := completed.length
          estimated_completion_time := cfg.max_workflow_time },
        r.2.1, r.2.2)
  | .error e => (.error e, r.2.1, r.2.2)

/-- Whether a step would eventually succeed within its retry budget:
some attempt among `0 … retry_count` completes.  (`attempt + fuel` is
the search window, mirroring `stepAttempts`.) -/
def stepCanSucceedFrom (step : WorkflowStep) : ℕ → ℕ → Bool
  | 0, _ => false
  | fuel + 1, attempt =>
      (step.handler attempt).isOk || stepCanSucceedFrom step fuel (attempt + 1)

/-- Whether a step succeeds within `retry_count + 1` attempts. -/
def stepCanSucceed (step : WorkflowStep) : Bool :=
  stepCanSucceedFrom step (step.retry_count + 1) 0

/-! ### Concrete instances used by the theorems -/

/-- A quality vector with every dimension (and the overall score) equal. -/
def mkQ (x : ℚ) : AdvancedQualityMetrics := ⟨x, x, x, x, x, x, x, x, x, x, x, x⟩

/-- Overall scores realizing the synthetic per-pass delta sequence
`[1.0, 0.3, 0.05]` of the spec: assessments (by service-call index) give
3.0 → 4.0 (Δ 1.0), 4.0 → 4.3 (Δ 0.3), and would give 4.3 → 4.35
(Δ 0.05) in a third pass. -/
def s1ScoreAt : ℕ → ℚ
  | 1 => 3
  | 3 => 4
  | 4 => 4
  | 6 => 43/10
  | 7 => 43/10
  | 9 => 87/20
  | _ => 0

/-- Services realizing the synthetic delta sequence. -/
def S1 : Services :=
  { assess := fun n _ => .ok (mkQ (s1ScoreAt n))
    enhance := fun _ c _ => .ok (c ++ "x", "t") }

/-- The enhancement loop run on the synthetic delta sequence with the
default configuration (`quality_convergence_threshold = 0.1`,
`target_quality = 8`, `max_passes = 3`). -/
def c1run : Except PyExc (String × String × List EnhancementPass × ConvergenceMetrics × ℕ) :=
  enhanceLoop S1 {} 8 3 1 "s0" "t0" [] {} 1

/-- Services whose every assessment scores 9.0 — above the default
target 8.0, so `enhance_story` takes the zero-pass path. -/
def S4 : Services :=
  { assess := fun _ _ => .ok (mkQ 9)
    enhance := fun _ c _ => .ok (c, "t") }

/-- Services whose assessments score 5.0 and whose Generation Service
always fails: the first enhancement pass fails mid-loop. -/
def S5 : Services :=
  { assess := fun _ _ => .ok (mkQ 5)
    enhance := fun _ _ _ => .error (.storyGenerationError "generation service unavailable") }

/-! ### C1 — convergence behaviour on the synthetic delta sequence -/

/-- C1 counterexample: with `quality_convergence_threshold = 0.1` and the
synthetic delta sequence `[1.0, 0.3, 0.05]`, the claim says the loop
stops after the **3rd** pass with **plateau** as the recorded reason.  On
the code it stops after the **2nd** pass: `_update_convergence_metrics`
flags diminishing returns at pass 2 (0.3 < 0.5 · 1.0) and
`_detect_quality_convergence` then stops the loop, so the third delta is
never produced.  The recorded pass history has length 2, not 3. -/
theorem enhancement_loop_synthetic_deltas_counterexample :
    (match c1run with
     | .ok r => (r.2.2.1.length,
                 r.2.2.1.map (fun p => p.quality_improvement),
                 r.2.2.2.1.diminishing_returns_detected,
                 r.2.2.2.1.convergence_pass)
     | .error _ => (0, [], false, none))
      = (2, [1, 3/10], true, some 2) ∧
    (match c1run with
     | .ok r => r.2.2.1.length
     | .error _ => 0) ≠ 3 := by
  constructor
  · with_unfolding_all decide
  · with_unfolding_all decide

/-- C1 amended: on the synthetic delta sequence `[1.0, 0.3, 0.05]` with
threshold 0.1, the loop stops due to convergence after the 2nd pass with
`diminishing_returns_detected = true` (because 0.3 < 0.5 · 1.0) and
`convergence_pass = 2`; there is no separate plateau flag.  In general
`_detect_quality_convergence` stops the loop (after at least two passes)
when the latest delta is below the threshold, or diminishing returns has
been flagged, or the two most recent deltas are both below the
threshold — only diminishing returns is recorded distinctly. -/
theorem enhancement_loop_synthetic_deltas_stop :
    ((match c1run with
      | .ok r => (r.2.2.1.length,
                  r.2.2.2.1.convergence_detected,
                  r.2.2.2.1.diminishing_returns_detected,
                  r.2.2.2.1.convergence_pass,
                  r.2.2.2.1.improvement_velocity)
      | .error _ => (0, false, false, none, []))
       = (2, true, true, some 2, [1, 3/10]) ∧
     (3/10 : ℚ) < (1/2) * 1) ∧
    ∀ (cfg : QualityConfig) (ps : List EnhancementPass) (cm : ConvergenceMetrics),
      detect_quality_convergence cfg ps cm = true ↔
        2 ≤ ps.length ∧
        ((ps.map (fun p => p.quality_improvement)).getLastD 0 <
            cfg.quality_convergence_threshold ∨
          cm.diminishing_returns_detected = true ∨
          ∀ d ∈ lastTwo (ps.map (fun p => p.quality_improvement)),
            d < cfg.quality_convergence_threshold) := by
  refine ⟨⟨by with_unfolding_all decide, by norm_num⟩, ?_⟩
  intro cfg ps cm
  unfold detect_quality_convergence
  by_cases h1 : ps.length < 2
  · rw [if_pos h1]
    exact iff_of_false (by simp) (fun h => absurd h.1 (by omega))
  · rw [if_neg h1]
    have hlen : 2 ≤ ps.length := by omega
    by_cases h2 : (ps.map (fun p => p.quality_improvement)).getLastD 0 <
        cfg.quality_convergence_threshold
    · rw [if_pos h2]
      exact iff_of_true rfl ⟨hlen, Or.inl h2⟩
    · rw [if_neg h2]
      by_cases h3 : cm.diminishing_returns_detected = true
      · rw [if_pos h3]
        exact iff_of_true rfl ⟨hlen, Or.inr (Or.inl h3)⟩
      · rw [if_neg h3]
        by_cases h4 : (lastTwo (ps.map (fun p => p.quality_improvement))).all
            (fun improvement =>
              decide (improvement < cfg.quality_convergence_threshold)) = true
        · rw [if_pos h4]
          refine iff_of_true rfl ⟨hlen, Or.inr (Or.inr ?_)⟩
          intro d hd
          exact of_decide_eq_true (List.all_eq_true.mp h4 d hd)
        · rw [if_neg h4]
          refine iff_of_false (by simp) ?_
          rintro ⟨-, hc | hc | hc⟩
          · exact h2 hc
          · exact h3 hc
          · exact h4 (List.all_eq_true.mpr (fun d hd => decide_eq_true (hc d hd)))

/-! ### C3 / C4 / C5 — result assembly and error handling of the loop -/

/-- The name `target_quality` resolves neither in the local scope of
`_build_final_result` nor among the module globals. -/
lemma qee_target_quality_unbound : qee_build_resolves "target_quality" = false := by
  decide

/-- Lemma: `_build_final_result` always raises `NameError` on the unbound name
`target_quality`. -/
lemma build_final_result_error (cfg : QualityConfig) (content title : String)
    (ps : List EnhancementPass) (fq : AdvancedQualityMetrics)
    (cm : Option ConvergenceMetrics) :
    build_final_result cfg content title ps fq cm = .error (.nameError "target_quality") := by
  unfold build_final_result
  rw [qee_target_quality_unbound]
  simp

/-- C3: `_build_final_result` evaluates the name `target_quality`, which
is bound in `enhance_story`'s scope but not in `_build_final_result`'s,
so every call to it raises `NameError`; consequently `enhance_story`
never returns a `QualityEnhancedResult` — every run that reaches result
assembly (including the zero-pass path) errors, and every other run
propagates a service error. -/
theorem build_final_result_name_error :
    (∀ (cfg : QualityConfig) (content title : String)
       (ps : List EnhancementPass) (fq : AdvancedQualityMetrics)
       (cm : Option ConvergenceMetrics),
       build_final_result cfg content title ps fq cm =
         .error (.nameError "target_quality")) ∧
    (∀ (S : Services) (cfg : QualityConfig) (story title : String)
       (tq : Option ℚ) (mp : Option ℕ) (r : QualityEnhancedResult),
       enhance_story S cfg story title tq mp ≠ .ok r) := by
  refine ⟨build_final_result_error, ?_⟩
  intro S cfg story title tq mp r h
  unfold enhance_story at h
  cases hA : S.assess 0 story with
  | error e =>
      simp only [hA] at h
      exact Except.noConfusion h
  | ok q =>
      simp only [hA] at h
      by_cases hge : q.overall_score ≥ pyOrQ tq cfg.target_quality_score
      · rw [if_pos hge, build_final_result_error] at h
        exact Except.noConfusion h
      · rw [if_neg hge] at h
        cases hL : enhanceLoop S cfg (pyOrQ tq cfg.target_quality_score)
            (pyOrN mp cfg.max_enhancement_passes) 1 story title [] {} 1 with
        | error e =>
            simp only [hL] at h
            exact Except.noConfusion h
        | ok res =>
            simp only [hL] at h
            cases hF : S.assess res.2.2.2.2 res.1 with
            | error e =>
                simp only [hF] at h
                exact Except.noConfusion h
            | ok fq =>
                simp only [hF, build_final_result_error] at h
                exact Except.noConfusion h

/-- C4 (code bug): the spec requires the zero-pass path — initial
`overall_score ≥ target_quality_score` — to return the original content
and title unchanged with an empty pass history.  On the code this path
calls `_build_final_result`, which raises `NameError` on `target_quality`
(see C3), so `enhance_story` raises instead.  Failing input: services
whose every assessment scores 9.0, with the default target 8.0. -/
theorem zero_pass_path_raises_name_error :
    enhance_story S4 {} "story" "title" none none =
      .error (.nameError "target_quality") := by
  with_unfolding_all rfl

/-- C5 counterexample: the claim says that a Generation/Scoring Service
failure mid-pass makes the loop return "the best content and quality
known before the failing pass" to the caller.  On the code the exception
simply propagates out of `enhance_story`: with assessments scoring 5.0
(below the target 8.0) and a Generation Service that fails, the caller
receives the raw service error and no content or quality at all. -/
theorem mid_pass_service_failure_counterexample :
    enhance_story S5 {} "story" "title" none none =
      .error (.storyGenerationError "generation service unavailable") := by
  with_unfolding_all rfl

/-- C5 amended: a Generation Service failure during the first enhancement
pass is not retried inside the loop and propagates unchanged out of
`enhance_story`; the caller receives exactly the service's error (the
theorem holds for every service behaviour at later call indices, so no
internal retry can occur), and the best-known prior content/quality is
not returned — nothing is. -/
theorem mid_pass_service_failure_propagates
    (S : Services) (cfg : QualityConfig) (story title : String)
    (tq : ℚ) (mp : ℕ) (q0 q1 : AdvancedQualityMetrics) (e : PyExc)
    (htq : tq ≠ 0) (hmp : mp ≠ 0)
    (h0 : S.assess 0 story = .ok q0) (hlt0 : q0.overall_score < tq)
    (h1 : S.assess 1 story = .ok q1) (hlt1 : q1.overall_score < tq)
    (he : S.enhance 2 story (select_enhancement_strategy cfg q1) = .error e) :
    enhance_story S cfg story title (some tq) (some mp) = .error e := by
  obtain ⟨k, rfl⟩ : ∃ k, mp = k + 1 :=
    ⟨mp - 1, (Nat.succ_pred_eq_of_pos (Nat.pos_of_ne_zero hmp)).symm⟩
  have htq' : pyOrQ (some tq) cfg.target_quality_score = tq := by
    simp [pyOrQ, htq]
  have hmp' : pyOrN (some (k + 1)) cfg.max_enhancement_passes = k + 1 := by
    simp [pyOrN]
  unfold enhance_story
  rw [htq', hmp']
  simp only [h0]
  rw [if_neg (not_le.mpr hlt0)]
  rw [enhanceLoop]
  simp only [h1]
  rw [if_neg (not_le.mpr hlt1)]
  simp only [he]

/-- Witness for the C5 amended theorem at concrete services. -/
theorem mid_pass_service_failure_propagates_witness :
    enhance_story S5 {} "story" "title" (some 8) (some 3) =
      .error (.storyGenerationError "generation service unavailable") :=
  mid_pass_service_failure_propagates S5 {} "story" "title" 8 3
    (mkQ 5) (mkQ 5) (.storyGenerationError "generation service unavailable")
    (by norm_num) (by norm_num) rfl (by norm_num [mkQ]) rfl (by norm_num [mkQ]) rfl

/-! ### C8 — enhancement strategy selection -/

/-- Equal-weight configuration for the C8 instance ("equal weights"). -/
def cfgEqual : QualityConfig :=
  { enhancement_strategy_weights :=
      [("structure_weight", 1), ("character_weight", 1), ("pacing_weight", 1),
       ("dialogue_weight", 1), ("setting_weight", 1), ("emotional_impact_weight", 1),
       ("originality_weight", 1), ("technical_weight", 1)] }

/-- Scores `{structure: 5.0, dialogue: 6.5}`, all other dimensions 8.0. -/
def M1 : AdvancedQualityMetrics :=
  { mkQ 8 with overall_score := 6, structure_score := 5, dialogue_quality := 13/2 }

/-- A vector whose only weak dimension is `theme_integration` (5.0 < 7.0),
which has no entry in `strategy_priorities`. -/
def Mtheme : AdvancedQualityMetrics := { mkQ 8 with theme_integration := 5 }

/-- Python `max` keeps an element of the list it maximises over. -/
lemma pyMaxBySnd_mem {α : Type} (x : α × ℚ) (xs : List (α × ℚ)) (p : α × ℚ)
    (h : pyMaxBySnd (x :: xs) = some p) : p ∈ x :: xs := by
  unfold pyMaxBySnd at h
  have h' : xs.foldl (fun best y => if y.2 > best.2 then y else best) x = p :=
    Option.some.inj h
  clear h
  induction xs generalizing x with
  | nil => simp_all
  | cons y ys ih =>
      simp only [List.foldl_cons] at h'
      have := ih (if y.2 > x.2 then y else x) h'
      rcases List.mem_cons.mp this with h1 | h1
      · by_cases hc : y.2 > x.2
        · rw [if_pos hc] at h1
          exact h1 ▸ List.mem_cons_of_mem _ (List.mem_cons_self _ _)
        · rw [if_neg hc] at h1
          exact h1 ▸ List.mem_cons_self _ _
      · exact List.mem_cons_of_mem _ (List.mem_cons_of_mem _ h1)

/-- Every strategy `strategy_priorities` can yield is a focused one. -/
lemma strategy_priorities_ne_comprehensive (d : QualityDimension)
    (s : EnhancementStrategy) (h : strategy_priorities d = some s) :
    s ≠ .comprehensive := by
  cases d <;> simp [strategy_priorities] at h <;> simp [← h]

/-- C8 counterexample: the claim says that whenever some dimension scores
below 7.0 the selector returns the strategy tag mapped from the weak
dimension maximising the weighted priority.  With `theme_integration` as
the only weak dimension the code returns `comprehensive` instead — the
dict `strategy_priorities` has no entry for `theme_integration` (nor
`originality_score`), so such weak dimensions are silently skipped. -/
theorem enhancement_strategy_unmapped_weak_counterexample :
    select_enhancement_strategy cfgEqual Mtheme = .comprehensive ∧
    dimension_scores Mtheme .theme_integration < 7 ∧
    Mtheme.theme_integration < 7 := by
  refine ⟨by with_unfolding_all decide, by with_unfolding_all decide,
    by with_unfolding_all decide⟩

/-- C8 amended: the selector returns `comprehensive` exactly when every
weak dimension (score < 7.0) lacks an entry in `strategy_priorities` —
in particular when no dimension is weak; otherwise it returns the
focused strategy of the mapped weak dimension maximising
`(10 − score) × configuredWeight` (first one on ties).  The claim's
concrete instance holds: with scores `{structure: 5.0, dialogue: 6.5}`,
equal weights and all other dimensions not weak, the Structure-focused
strategy is selected (priority 5.0 > 3.5). -/
theorem enhancement_strategy_selection_characterization :
    select_enhancement_strategy cfgEqual M1 = .structure_focus ∧
    ∀ (cfg : QualityConfig) (m : AdvancedQualityMetrics),
      (select_enhancement_strategy cfg m = .comprehensive ↔
        ∀ d ∈ get_weakest_dimensions m 7, strategy_priorities d = none) := by
  refine ⟨by with_unfolding_all decide, ?_⟩
  intro cfg m
  unfold select_enhancement_strategy
  by_cases hw : (get_weakest_dimensions m 7).isEmpty
  · rw [if_pos hw]
    refine iff_of_true rfl ?_
    intro d hd
    rw [List.isEmpty_iff] at hw
    rw [hw] at hd
    exact absurd hd (List.not_mem_nil d)
  · rw [if_neg hw]
    set wp := (get_weakest_dimensions m 7).filterMap (fun dimension =>
      match strategy_priorities dimension with
      | some strat =>
          some (dimension,
            (10 - dimension_scores m dimension) *
              dictGet cfg.enhancement_strategy_weights (strategy_weight_key strat) 1)
      | none => none) with hwp
    cases hcase : wp with
    | nil =>
        rw [hcase] at hwp
        refine iff_of_true rfl ?_
        intro d hd
        have := List.filterMap_eq_nil_iff.mp hwp.symm d hd
        cases hsp : strategy_priorities d with
        | none => rfl
        | some s => rw [hsp] at this; exact absurd this (by simp)
    | cons x xs =>
        cases hmax : pyMaxBySnd (x :: xs) with
        | none => unfold pyMaxBySnd at hmax; exact absurd hmax (by simp)
        | some p =>
            have hp : p ∈ wp := hcase ▸ pyMaxBySnd_mem x xs p hmax
            rw [hwp] at hp
            obtain ⟨d, hd, hfd⟩ := List.mem_filterMap.mp hp
            cases hsp : strategy_priorities d with
            | none => rw [hsp] at hfd; exact absurd hfd (by simp)
            | some s =>
                rw [hsp] at hfd
                have hpd : p = (d, (10 - dimension_scores m d) *
                    dictGet cfg.enhancement_strategy_weights (strategy_weight_key s) 1) :=
                  (Option.some.inj hfd).symm
                refine iff_of_false ?_ ?_
                · intro hcontra
                  simp only [hmax, hpd, hsp] at hcontra
                  exact strategy_priorities_ne_comprehensive d s hsp hcontra
                · intro hall
                  exact absurd (hall d hd) (by rw [hsp]; simp)

/-! ### C10 — overall score weighting -/

/-- All eleven dimension scores of `m` lie in `[0, 10]`. -/
def dimsInRange (m : AdvancedQualityMetrics) : Prop :=
  (0 ≤ m.structure_score ∧ m.structure_score ≤ 10) ∧
  (0 ≤ m.coherence_score ∧ m.coherence_score ≤ 10) ∧
  (0 ≤ m.character_development ∧ m.character_development ≤ 10) ∧
  (0 ≤ m.genre_compliance ∧ m.genre_compliance ≤ 10) ∧
  (0 ≤ m.pacing_quality ∧ m.pacing_quality ≤ 10) ∧
  (0 ≤ m.theme_integration ∧ m.theme_integration ≤ 10) ∧
  (0 ≤ m.dialogue_quality ∧ m.dialogue_quality ≤ 10) ∧
  (0 ≤ m.setting_immersion ∧ m.setting_immersion ≤ 10) ∧
  (0 ≤ m.emotional_impact ∧ m.emotional_impact ≤ 10) ∧
  (0 ≤ m.originality_score ∧ m.originality_score ≤ 10) ∧
  (0 ≤ m.technical_quality ∧ m.technical_quality ≤ 10)

/-- Rounding to two decimals keeps a value of `[0, 10]` in `[0, 10]`. -/
lemma roundTo2_mem (x : ℚ) (h0 : 0 ≤ x) (h1 : x ≤ 10) :
    0 ≤ roundTo2 x ∧ roundTo2 x ≤ 10 := by
  unfold roundTo2
  rw [round_eq]
  constructor
  · have hfl : (0 : ℤ) ≤ ⌊100 * x + 1/2⌋ := Int.le_floor.mpr (by push_cast; linarith)
    have : (0 : ℚ) ≤ (⌊100 * x + 1/2⌋ : ℤ) := by exact_mod_cast hfl
    linarith
  · have hfl : ⌊100 * x + 1/2⌋ < 1001 := Int.floor_lt.mpr (by push_cast; linarith)
    have : ((⌊100 * x + 1/2⌋ : ℤ) : ℚ) ≤ 1000 := by
      exact_mod_cast Int.lt_add_one_iff.mp hfl
    linarith

/-- C10: the eleven weights of
`_calculate_comprehensive_overall_score` sum to exactly 1.00, and
whenever every dimension score lies in `[0, 10]` the computed overall
score lies in `[0, 10]`: no residual score is dropped. -/
theorem overall_score_weights_and_bounds :
    ((v14_weights.map (fun kv => kv.2)).sum = 1) ∧
    ∀ m : AdvancedQualityMetrics, dimsInRange m →
      0 ≤ calculate_comprehensive_overall_score m ∧
      calculate_comprehensive_overall_score m ≤ 10 := by
  constructor
  · norm_num [v14_weights]
  · intro m hm
    obtain ⟨⟨h1a, h1b⟩, ⟨h2a, h2b⟩, ⟨h3a, h3b⟩, ⟨h4a, h4b⟩, ⟨h5a, h5b⟩,
      ⟨h6a, h6b⟩, ⟨h7a, h7b⟩, ⟨h8a, h8b⟩, ⟨h9a, h9b⟩, ⟨h10a, h10b⟩,
      ⟨h11a, h11b⟩⟩ := hm
    have hws : calculate_comprehensive_overall_score m =
        roundTo2 (m.structure_score * (12/100) + m.coherence_score * (10/100) +
          m.character_development * (12/100) + m.genre_compliance * (8/100) +
          m.pacing_quality * (10/100) + m.theme_integration * (8/100) +
          m.dialogue_quality * (10/100) + m.setting_immersion * (8/100) +
          m.emotional_impact * (12/100) + m.originality_score * (6/100) +
          m.technical_quality * (4/100)) := by
      have w1 : dictGet v14_weights "structure" 0 = 12/100 := by with_unfolding_all rfl
      have w2 : dictGet v14_weights "coherence" 0 = 10/100 := by with_unfolding_all rfl
      have w3 : dictGet v14_weights "character_development" 0 = 12/100 := by
        with_unfolding_all rfl
      have w4 : dictGet v14_weights "genre_compliance" 0 = 8/100 := by
        with_unfolding_all rfl
      have w5 : dictGet v14_weights "pacing_quality" 0 = 10/100 := by
        with_unfolding_all rfl
      have w6 : dictGet v14_weights "theme_integration" 0 = 8/100 := by
        with_unfolding_all rfl
      have w7 : dictGet v14_weights "dialogue_quality" 0 = 10/100 := by
        with_unfolding_all rfl
      have w8 : dictGet v14_weights "setting_immersion" 0 = 8/100 := by
        with_unfolding_all rfl
      have w9 : dictGet v14_weights "emotional_impact" 0 = 12/100 := by
        with_unfolding_all rfl
      have w10 : dictGet v14_weights "originality_score" 0 = 6/100 := by
        with_unfolding_all rfl
      have w11 : dictGet v14_weights "technical_quality" 0 = 4/100 := by
        with_unfolding_all rfl
      simp only [calculate_comprehensive_overall_score]
      rw [w1, w2, w3, w4, w5, w6, w7, w8, w9, w10, w11]
    rw [hws]
    exact roundTo2_mem _ (by linarith) (by linarith)

/-- Witness for C10 at a concrete quality vector. -/
theorem overall_score_weights_and_bounds_witness :
    dimsInRange (mkQ 5) ∧
    (0 ≤ calculate_comprehensive_overall_score (mkQ 5) ∧
      calculate_comprehensive_overall_score (mkQ 5) ≤ 10) :=
  ⟨by norm_num [dimsInRange, mkQ],
    overall_score_weights_and_bounds.2 (mkQ 5) (by norm_num [dimsInRange, mkQ])⟩

/-! ### C6 — retry and backoff of `_execute_step_with_retry` -/

/-- A step timing out on attempts 1 and 2 and succeeding on attempt 3
(`retry_count = 2`, the source default). -/
def tmoStep : WorkflowStep :=
  { name := "t", stage := .analysis,
    handler := fun i => if i < 2 then .timeout else .ok 1 1 }

/-- A step whose handler raises on attempts 1 and 2 (taking 2 time units
each) and succeeds on attempt 3. -/
def failStep : WorkflowStep :=
  { name := "f", stage := .analysis,
    handler := fun i => if i < 2 then .fail "boom" 2 else .ok 1 1 }

/-- C6 counterexample: the claim says the backoff sleep
`min(2^attempt, 10)` happens between consecutive attempts *in both the
timeout and the handler-failure case*.  For a step that times out on
attempts 1 and 2 and succeeds on attempt 3, the code performs **no**
sleeps (the `asyncio.TimeoutError` branch has no `asyncio.sleep`): the
recorded backoff list is empty, not `[min(2^0,10), min(2^1,10)]`. -/
theorem timeout_retry_no_backoff_counterexample :
    execute_step_with_retry tmoStep = (.ok 1, 121, []) ∧
    (execute_step_with_retry tmoStep).2.2 ≠
      [min ((2 : ℚ) ^ 0) 10, min ((2 : ℚ) ^ 1) 10] := by
  refine ⟨by with_unfolding_all rfl, by with_unfolding_all decide⟩

/-- No handler-failure attempts means no backoff sleeps, for every fuel
and starting attempt. -/
lemma stepAttempts_no_fail_sleeps (step : WorkflowStep)
    (hnf : ∀ (i : ℕ) (msg : String) (dur : ℚ), step.handler i ≠ .fail msg dur) :
    ∀ fuel attempt, (stepAttempts step fuel attempt).2.2 = [] := by
  intro fuel
  induction fuel with
  | zero => intro a; rfl
  | succ f ih =>
      intro a
      unfold stepAttempts
      cases h : step.handler a with
      | ok v d => simp [h]
      | timeout =>
          by_cases ha : a = step.retry_count
          · simp [h, ha]
          · simp [h, ha, ih (a + 1)]
      | fail m d => exact absurd h (hnf a m d)

/-- C6 amended: the bounded exponential backoff
`min(2^attempt, 10)` is slept only in the handler-failure branch; the
claim's concrete handler-failure scenario holds (retry_count = 2, fails
on attempts 1 and 2, succeeds on attempt 3, backoffs
`min(2^0,10), min(2^1,10)`), while timeout retries happen immediately:
a step whose handler never raises performs no backoff sleeps at all. -/
theorem retry_backoff_only_on_handler_failure :
    (execute_step_with_retry failStep =
      (.ok 1, 8, [min ((2 : ℚ) ^ 0) 10, min ((2 : ℚ) ^ 1) 10])) ∧
    ∀ step : WorkflowStep,
      (∀ (i : ℕ) (msg : String) (dur : ℚ), step.handler i ≠ .fail msg dur) →
      (execute_step_with_retry step).2.2 = [] := by
  refine ⟨by with_unfolding_all rfl, ?_⟩
  intro step hnf
  exact stepAttempts_no_fail_sleeps step hnf (step.retry_count + 1) 0

/-- Witness for the C6 amended theorem: the all-timeout step sleeps
nothing. -/
theorem retry_backoff_only_on_handler_failure_witness :
    (execute_step_with_retry tmoStep).2.2 = [] :=
  retry_backoff_only_on_handler_failure.2 tmoStep (by
    intro i msg dur
    by_cases h : i < 2 <;> simp [tmoStep, h])

/-! ### C2 — the wall-clock budget `max_workflow_time` -/

/-- Whether an `Except` result is a success. -/
def resultOk {α : Type} : Except PyExc α → Bool
  | .ok _ => true
  | .error _ => false

/-- Lemma: `stepAttempts` succeeds exactly when some attempt in its window
succeeds (under the call invariant `attempt + fuel = retry_count + 1`). -/
lemma stepAttempts_isOk (step : WorkflowStep) :
    ∀ fuel attempt, attempt + fuel = step.retry_count + 1 →
      resultOk (stepAttempts step fuel attempt).1 =
        stepCanSucceedFrom step fuel attempt := by
  intro fuel
  induction fuel with
  | zero => intro a _; rfl
  | succ f ih =>
      intro a ha
      unfold stepAttempts stepCanSucceedFrom
      cases h : step.handler a with
      | ok v d => simp [h, AttemptOutcome.isOk, resultOk]
      | timeout =>
          by_cases hrc : a = step.retry_count
          · obtain rfl : f = 0 := by omega
            simp [h, hrc, AttemptOutcome.isOk, resultOk, stepCanSucceedFrom]
          · simp [h, hrc, AttemptOutcome.isOk, ih (a + 1) (by omega)]
      | fail m d =>
          by_cases hrc : a = step.retry_count
          · obtain rfl : f = 0 := by omega
            simp [h, hrc, AttemptOutcome.isOk, resultOk, stepCanSucceedFrom]
          · simp [h, hrc, AttemptOutcome.isOk, ih (a + 1) (by omega)]

/-- Lemma: `_execute_step_with_retry` succeeds exactly when the step can succeed
within its retry budget. -/
lemma execute_step_isOk (step : WorkflowStep) :
    resultOk (execute_step_with_retry step).1 = stepCanSucceed step :=
  stepAttempts_isOk step (step.retry_count + 1) 0 (by omega)

/-- The step loop succeeds exactly when every remaining step can succeed
within its retry budget — independently of durations, of the
accumulators and of any wall-clock budget. -/
lemma wfLoop_isOk (total : ℕ) :
    ∀ (rest : List WorkflowStep) (i : ℕ) (done rem : List String) (el : ℚ)
      (tr : List WfObservation),
      resultOk (wfLoop total rest i done rem el tr).1 = rest.all stepCanSucceed := by
  intro rest
  induction rest with
  | nil => intro i done rem el tr; rfl
  | cons s rest ih =>
      intro i done rem el tr
      unfold wfLoop
      cases hr : (execute_step_with_retry s).1 with
      | ok v =>
          have hs : stepCanSucceed s = true := by
            rw [← execute_step_isOk, hr]; rfl
          simp [hr, hs, ih]
      | error e =>
          have hs : stepCanSucceed s = false := by
            rw [← execute_step_isOk, hr]; rfl
          simp [hr, hs, resultOk]

/-- C2 amended: `execute_workflow` never enforces `max_workflow_time`.
Success is exactly "every registered step succeeds within its retry
budget", for every configuration and every simulated duration — a run
whose elapsed time exceeds the budget still completes, and no
time-budget error exists.  The elapsed time and the emitted progress
observations are likewise independent of the configured budget (the
budget is only stored as `estimated_completion_time`). -/
theorem execute_workflow_ignores_time_budget :
    (∀ (cfg : EngineConfig) (steps : List WorkflowStep),
      resultOk (execute_workflow cfg steps).1 = steps.all stepCanSucceed) ∧
    (∀ (cfg₁ cfg₂ : EngineConfig) (steps : List WorkflowStep),
      (execute_workflow cfg₁ steps).2 = (execute_workflow cfg₂ steps).2) := by
  constructor
  · intro cfg steps
    have h := wfLoop_isOk steps.length steps 0 [] (steps.map (fun s => s.name)) 0 []
    unfold execute_workflow
    cases hr : (wfLoop steps.length steps 0 [] (steps.map (fun s => s.name)) 0 []).1 with
    | ok c =>
        rw [hr] at h
        simp [hr, ← h, resultOk]
    | error e =>
        rw [hr] at h
        simp [hr, ← h, resultOk]
  · intro cfg₁ cfg₂ steps
    unfold execute_workflow
    cases hr : (wfLoop steps.length steps 0 [] (steps.map (fun s => s.name)) 0 []).1 <;>
      simp [hr]

/-- A single registered step whose handler completes successfully after
301 simulated seconds — exceeding the default budget of 300. -/
def stepA : WorkflowStep :=
  { name := "s1", stage := .content_generation, handler := fun _ => .ok 1 301 }

/-- C2 counterexample: with the default `max_workflow_time = 300`, a run
whose only step takes 301 time units completes successfully — the
elapsed time 301 exceeds the budget 300 and no time-budget abort
occurs, contradicting the claim that such a run aborts with a
time-budget error. -/
theorem execute_workflow_time_budget_counterexample :
    (match execute_workflow {} [stepA] with
     | (.ok r, _, _) => some (r.generation_time, r.estimated_completion_time)
     | _ => none) = some (301, 300) ∧ (300 : ℚ) < 301 := by
  refine ⟨by with_unfolding_all rfl, by norm_num⟩

/-! ### C7 — every step failure aborts the run -/

/-- Whether a result is an aborted run (`WorkflowError`). -/
def isWorkflowErr {α : Type} : Except PyExc α → Bool
  | .error (.workflowError _) => true
  | _ => false

/-- A step that cannot succeed yields an error from
`_execute_step_with_retry`. -/
lemma execute_step_fails (step : WorkflowStep) (hf : stepCanSucceed step = false) :
    ∃ e, (execute_step_with_retry step).1 = .error e := by
  have h := execute_step_isOk step
  rw [hf] at h
  cases hr : (execute_step_with_retry step).1 with
  | ok v => rw [hr] at h; exact absurd h (by simp [resultOk])
  | error e => exact ⟨e, rfl⟩

/-- A step that can succeed yields a value from
`_execute_step_with_retry`. -/
lemma execute_step_succeeds (step : WorkflowStep) (hs : stepCanSucceed step = true) :
    ∃ v, (execute_step_with_retry step).1 = .ok v := by
  have h := execute_step_isOk step
  rw [hs] at h
  cases hr : (execute_step_with_retry step).1 with
  | ok v => exact ⟨v, rfl⟩
  | error e => rw [hr] at h; exact absurd h (by simp [resultOk])

/-- Running the step loop on `pre ++ f :: post` where every step of
`pre` succeeds and `f` exhausts its retries: the run aborts with a
`WorkflowError` (whatever `f.required` is), exactly one observation per
executed step plus one for `f` is emitted (none for `post`), and every
emitted completed-list is `done` plus a prefix of the names of `pre`. -/
lemma wfLoop_failure_spec (total : ℕ) (f : WorkflowStep) (post : List WorkflowStep)
    (hf : stepCanSucceed f = false) :
    ∀ (pre : List WorkflowStep) (i : ℕ) (done rem : List String) (el : ℚ)
      (tr : List WfObservation),
      (∀ s ∈ pre, stepCanSucceed s = true) →
      ∃ L, (wfLoop total (pre ++ f :: post) i done rem el tr).2.2 = tr ++ L ∧
        isWorkflowErr (wfLoop total (pre ++ f :: post) i done rem el tr).1 = true ∧
        L.length = pre.length + 1 ∧
        ∀ o ∈ L, ∃ j ≤ pre.length,
          o.steps_completed = done ++ ((pre.map (fun s => s.name)).take j) := by
  intro pre
  induction pre with
  | nil =>
      intro i done rem el tr _
      obtain ⟨e, he⟩ := execute_step_fails f hf
      refine ⟨[{ stage := f.stage, current_step := f.name,
                 progress := (i : ℚ) / (total : ℚ),
                 steps_completed := done, steps_remaining := rem }], ?_, ?_, ?_, ?_⟩
      · simp only [List.nil_append]
        unfold wfLoop
        simp [he]
      · simp only [List.nil_append]
        unfold wfLoop
        by_cases hreq : f.required <;> simp [he, hreq, isWorkflowErr]
      · rfl
      · intro o ho
        simp only [List.mem_singleton] at ho
        exact ⟨0, by omega, by simp [ho]⟩
  | cons s pre ih =>
      intro i done rem el tr hpre
      obtain ⟨v, hv⟩ := execute_step_succeeds s (hpre s (List.mem_cons_self s pre))
      have hpre' : ∀ x ∈ pre, stepCanSucceed x = true := fun x hx =>
        hpre x (List.mem_cons_of_mem s hx)
      obtain ⟨L', htr', herr', hlen', hcomp'⟩ :=
        ih (i + 1) (done ++ [s.name]) (listRemoveFirst rem s.name)
          (el + (execute_step_with_retry s).2.1)
          (tr ++ [{ stage := s.stage, current_step := s.name,
                    progress := (i : ℚ) / (total : ℚ),
                    steps_completed := done, steps_remaining := rem }]) hpre'
      refine ⟨{ stage := s.stage, current_step := s.name,
                progress := (i : ℚ) / (total : ℚ),
                steps_completed := done, steps_remaining := rem } :: L', ?_, ?_, ?_, ?_⟩
      · show (wfLoop total ((s :: pre) ++ f :: post) i done rem el tr).2.2 = _
        rw [List.cons_append]
        unfold wfLoop
        simp only [hv]
        rw [htr']
        simp
      · show isWorkflowErr (wfLoop total ((s :: pre) ++ f :: post) i done rem el tr).1 = true
        rw [List.cons_append]
        unfold wfLoop
        simp only [hv]
        exact herr'
      · simp [hlen']
      · intro o ho
        rcases List.mem_cons.mp ho with ho1 | ho1
        · exact ⟨0, by omega, by simp [ho1]⟩
        · obtain ⟨j, hj, hcomp⟩ := hcomp' o ho1
          refine ⟨j + 1, by simpa using Nat.succ_le_succ hj, ?_⟩
          rw [hcomp]
          simp [List.take_succ_cons]

/-- The trace of `execute_workflow` is the trace of its step loop. -/
lemma execute_workflow_trace (cfg : EngineConfig) (steps : List WorkflowStep) :
    (execute_workflow cfg steps).2.2 =
      (wfLoop steps.length steps 0 [] (steps.map (fun s => s.name)) 0 []).2.2 := by
  unfold execute_workflow
  cases hr : (wfLoop steps.length steps 0 [] (steps.map (fun s => s.name)) 0 []).1 <;>
    simp only [hr]

/-- An aborted step loop makes `execute_workflow` abort with the same
error. -/
lemma execute_workflow_abort (cfg : EngineConfig) (steps : List WorkflowStep)
    (h : isWorkflowErr
      (wfLoop steps.length steps 0 [] (steps.map (fun s => s.name)) 0 []).1 = true) :
    isWorkflowErr (execute_workflow cfg steps).1 = true := by
  unfold execute_workflow
  cases hr : (wfLoop steps.length steps 0 [] (steps.map (fun s => s.name)) 0 []).1 with
  | ok c => rw [hr] at h; exact absurd h (by simp [isWorkflowErr])
  | error e =>
      rw [hr] at h
      simp only [hr]
      cases e <;> simp [isWorkflowErr] at h ⊢

/-- C7: a step that exhausts its retries aborts the whole run with a
`WorkflowError`, even when its `required` flag is `false` (the
non-required branch raises `StoryGenerationError` — "NO OPTIONAL STEPS -
ALL MUST SUCCEED" — which the outer handler wraps into a
`WorkflowError` all the same); exactly one observation is emitted per
step up to and including the failing one, so no step registered after
the failing one executes, and no later step's name ever appears in a
completed list. -/
theorem step_failure_always_aborts (cfg : EngineConfig)
    (pre post : List WorkflowStep) (f : WorkflowStep)
    (hpre : ∀ s ∈ pre, stepCanSucceed s = true)
    (hf : stepCanSucceed f = false)
    (hnodup : (((pre ++ f :: post).map (fun s => s.name))).Nodup) :
    isWorkflowErr (execute_workflow cfg (pre ++ f :: post)).1 = true ∧
    (execute_workflow cfg (pre ++ f :: post)).2.2.length = pre.length + 1 ∧
    ∀ o ∈ (execute_workflow cfg (pre ++ f :: post)).2.2, ∀ s ∈ post,
      s.name ∉ o.steps_completed ∧ f.name ∉ o.steps_completed := by
  obtain ⟨L, htr, herr, hlen, hcomp⟩ :=
    wfLoop_failure_spec (pre ++ f :: post).length f post hf pre 0 []
      ((pre ++ f :: post).map (fun s => s.name)) 0 [] hpre
  have hdisj : ((pre.map (fun s => s.name))).Disjoint
      (f.name :: post.map (fun s => s.name)) := by
    rw [List.map_append, List.map_cons] at hnodup
    exact List.disjoint_of_nodup_append hnodup
  have hexec2 := execute_workflow_trace cfg (pre ++ f :: post)
  refine ⟨execute_workflow_abort cfg (pre ++ f :: post) herr, ?_, ?_⟩
  · rw [hexec2, htr]
    simpa using hlen
  · intro o ho s hs
    rw [hexec2, htr] at ho
    simp only [List.nil_append] at ho
    obtain ⟨j, hj, hcompo⟩ := hcomp o ho
    have hsub : ∀ nm, nm ∈ o.steps_completed → nm ∈ pre.map (fun x => x.name) := by
      intro nm hnm
      rw [hcompo] at hnm
      simp only [List.nil_append] at hnm
      exact List.mem_of_mem_take hnm
    constructor
    · intro hmem
      exact hdisj (hsub s.name hmem)
        (List.mem_cons_of_mem f.name (List.mem_map_of_mem (fun x => x.name) hs))
    · intro hmem
      exact hdisj (hsub f.name hmem) (List.mem_cons_self _ _)

/-- A step that always succeeds in one time unit. -/
def sOK (nm : String) : WorkflowStep :=
  { name := nm, stage := .analysis, handler := fun _ => .ok 1 1 }

/-- A non-required step that fails on every attempt. -/
def sBad : WorkflowStep :=
  { name := "s2", stage := .analysis, handler := fun _ => .fail "always" 1,
    required := false }

/-- Witness for C7: a three-step run whose second step (marked
`required := false`) always fails — the run aborts and step `s3` never
executes or appears as completed. -/
theorem step_failure_always_aborts_witness :
    isWorkflowErr (execute_workflow {} ([sOK "s1"] ++ sBad :: [sOK "s3"])).1 = true ∧
    (execute_workflow {} ([sOK "s1"] ++ sBad :: [sOK "s3"])).2.2.length =
      [sOK "s1"].length + 1 ∧
    ∀ o ∈ (execute_workflow {} ([sOK "s1"] ++ sBad :: [sOK "s3"])).2.2,
      ∀ s ∈ [sOK "s3"],
        s.name ∉ o.steps_completed ∧ sBad.name ∉ o.steps_completed :=
  step_failure_always_aborts {} [sOK "s1"] [sOK "s3"] sBad
    (by intro s hs
        simp only [List.mem_singleton] at hs
        subst hs
        with_unfolding_all decide)
    (by with_unfolding_all decide)
    (by with_unfolding_all decide)

/-! ### C9 — the step partition invariant -/

/-- Python `list.remove(x)` on a list starting with `x` drops that head. -/
lemma listRemoveFirst_cons_self (x : String) (l : List String) :
    listRemoveFirst (x :: l) x = l := by
  simp [listRemoveFirst]

/-- Invariant of the step loop: every emitted observation's completed
and remaining lists concatenate to the full list of registered step
names (when called in `execute_workflow`'s pattern: the remaining list
is the names of the steps not yet processed). -/
lemma wfLoop_obs_concat (total : ℕ) (all : List String) :
    ∀ (rest : List WorkflowStep) (i : ℕ) (done : List String) (el : ℚ)
      (tr : List WfObservation),
      done ++ rest.map (fun s => s.name) = all →
      (∀ o ∈ tr, o.steps_completed ++ o.steps_remaining = all) →
      ∀ o ∈ (wfLoop total rest i done (rest.map (fun s => s.name)) el tr).2.2,
        o.steps_completed ++ o.steps_remaining = all := by
  intro rest
  induction rest with
  | nil =>
      intro i done el tr hall htr o ho
      unfold wfLoop at ho
      rcases List.mem_append.mp ho with h1 | h1
      · exact htr o h1
      · simp only [List.mem_singleton] at h1
        subst h1
        simpa using hall
  | cons s rest ih =>
      intro i done el tr hall htr o ho
      unfold wfLoop at ho
      cases hr : (execute_step_with_retry s).1 with
      | ok v =>
          simp only [hr] at ho
          rw [List.map_cons, listRemoveFirst_cons_self] at ho
          refine ih (i + 1) (done ++ [s.name]) (el + (execute_step_with_retry s).2.1)
            (tr ++ [_]) ?_ ?_ o ho
          · rw [← hall]
            simp
          · intro o' ho'
            rcases List.mem_append.mp ho' with h1 | h1
            · exact htr o' h1
            · simp only [List.mem_singleton] at h1
              subst h1
              simpa using hall
      | error e =>
          simp only [hr] at ho
          rcases List.mem_append.mp ho with h1 | h1
          · exact htr o h1
          · simp only [List.mem_singleton] at h1
            subst h1
            simpa using hall

/-- C9 amended: at every observation point of a run (each
`progress_callback` invocation, one before each step and one at
finalization), each registered step name is in exactly one of
{completed, remaining} (given distinct step names).  The original
three-way partition fails because the currently-executing step remains
in `steps_remaining` until it completes — see the counterexample. -/
theorem step_partition_completed_remaining (cfg : EngineConfig)
    (steps : List WorkflowStep)
    (hnodup : (steps.map (fun s => s.name)).Nodup) :
    ∀ o ∈ (execute_workflow cfg steps).2.2, ∀ nm ∈ steps.map (fun s => s.name),
      (nm ∈ o.steps_completed ↔ nm ∉ o.steps_remaining) := by
  intro o ho nm hnm
  rw [execute_workflow_trace] at ho
  have hconcat : o.steps_completed ++ o.steps_remaining =
      steps.map (fun s => s.name) :=
    wfLoop_obs_concat steps.length (steps.map (fun s => s.name)) steps 0 [] 0 []
      (by simp) (by simp) o ho
  have hnd := hnodup
  rw [← hconcat] at hnd hnm
  obtain ⟨-, -, hdisj⟩ := List.nodup_append.mp hnd
  constructor
  · intro hc hr
    exact hdisj hc hr
  · intro hr
    rcases List.mem_append.mp hnm with hc | hc
    · exact hc
    · exact absurd hc hr

/-- Fallback observation for head projections. -/
def emptyObs : WfObservation :=
  { stage := .analysis, current_step := "", progress := 0,
    steps_completed := [], steps_remaining := [] }

/-- C9 counterexample: the claim's three-way partition
{completed, remaining, currently-executing} fails — at the first
observation of a run of steps `s1, s3`, step `s1` is the currently
executing step (`current_step = "s1"`) *and* still a member of
`steps_remaining` (it is only removed after it completes), so it lies in
two of the three sets at once. -/
theorem executing_step_still_in_remaining_counterexample :
    ((execute_workflow {} [sOK "s1", sOK "s3"]).2.2.headD emptyObs).current_step
        = "s1" ∧
    "s1" ∈ ((execute_workflow {} [sOK "s1", sOK "s3"]).2.2.headD
        emptyObs).steps_remaining ∧
    "s1" ∉ ((execute_workflow {} [sOK "s1", sOK "s3"]).2.2.headD
        emptyObs).steps_completed := by
  refine ⟨by with_unfolding_all rfl, by with_unfolding_all decide,
    by with_unfolding_all decide⟩

/-- The first observation of the two-step run used in the C9 witness. -/
def obs1 : WfObservation :=
  { stage := .analysis, current_step := "s1", progress := 0,
    steps_completed := [], steps_remaining := ["s1", "s3"] }

/-- Witness for the C9 amended theorem at a concrete run, observation
and step name. -/
theorem step_partition_completed_remaining_witness :
    "s1" ∈ obs1.steps_completed ↔ "s1" ∉ obs1.steps_remaining :=
  step_partition_completed_remaining {} [sOK "s1", sOK "s3"]
    (by with_unfolding_all decide) obs1 (by with_unfolding_all decide)
    "s1" (by with_unfolding_all decide)

end AIStoryWriter
